import Mathlib

/-!
Shallow embedding of drivers/remoteproc/zynqmp_r5_remoteproc.c (ZynqMP R5
remote processor control driver) and proofs about the claims of its
specification.

Register state is modelled as three memory-mapped windows (RPU control,
CRL_APB, IPI), each a function from byte offset to the stored 32-bit value
(a Nat; faithfulness to u32 is captured by `< 2^32` hypotheses where the
bit-level reasoning needs it).  Effectful C code is embedded as explicit
state passing over `KState`, which additionally records two observation
traces: `opTrace`, the sequence of operation-level calls issued by the
lifecycle controller (start/stop), and `raw`, the sequence of raw register
writes, busy-wait delays and stub diagnostics.
-/

namespace ZynqmpR5

/-- BIT(n) macro from the kernel headers. -/
def BIT (n : Nat) : Nat := 1 <<< n

/-- RPU control register offset (RPU_GLBL_CNTL_OFFSET). -/
def RPU_GLBL_CNTL_OFFSET : Nat := 0x00000000

/-- RPU0 configuration register offset. -/
def RPU_0_CFG_OFFSET : Nat := 0x00000100

/-- RPU1 configuration register offset. -/
def RPU_1_CFG_OFFSET : Nat := 0x00000200

/-- Boot memory bit: high for OCM, low for TCM. -/
def VINITHI_BIT : Nat := BIT 2

/-- CPU halt bit: high means running, low means halted. -/
def nCPUHALT_BIT : Nat := BIT 0

/-- RPU mode bit: high split mode, low lock step. -/
def SLSPLIT_BIT : Nat := BIT 3

/-- Clamp mode bit. -/
def SLCLAMP_BIT : Nat := BIT 4

/-- TCM mode bit: high combines the RPU TCMs. -/
def TCM_COMB_BIT : Nat := BIT 6

/-- RPU global control offset in CRL_APB. -/
def CPU_R5_CTRL_OFFSET : Nat := 0x00000090

/-- LPD block reset register offset in CRL_APB. -/
def RST_LPD_TOP_OFFSET : Nat := 0x0000023C

/-- RPU CPU0 reset bit. -/
def RPU0_RESET_BIT : Nat := BIT 0

/-- IPI trigger register offset. -/
def TRIG_OFFSET : Nat := 0x00000000

/-- IPI observation register offset. -/
def OBS_OFFSET : Nat := 0x00000004

/-- IPI interrupt status register offset. -/
def ISR_OFFSET : Nat := 0x00000010

/-- IPI interrupt mask register offset. -/
def IMR_OFFSET : Nat := 0x00000014

/-- IPI interrupt enable register offset. -/
def IER_OFFSET : Nat := 0x00000018

/-- IPI interrupt disable register offset. -/
def IDR_OFFSET : Nat := 0x0000001C

/-- All-mask constant used for channel-wide IPI disable and clear. -/
def IPI_ALL_MASK : Nat := 0x0F0F0301

/-- At most 2 RPU instances are supported. -/
def MAX_INSTANCES : Nat := 2

/-- C complement of a 32-bit mask: tmp &= ~m on a u32 is tmp &&& (0xFFFFFFFF ^^^ m). -/
def compl32 (x : Nat) : Nat := 0xFFFFFFFF ^^^ x

/-- enum control_method from the source. -/
inductive control_method
  | SMC
  | HVC
  | HW
deriving DecidableEq

/-- enum rpu_bootmem from the source. -/
inductive rpu_bootmem
  | TCM
  | OCM
deriving DecidableEq

/-- enum rpu_core_conf from the source. -/
inductive rpu_core_conf
  | LOCK_STEP
  | SPLIT
deriving DecidableEq

/-- struct zynqmp_r5_rproc_pdata: the per-instance fields the modelled
operations read.  The three iomem base pointers are represented by the
three windows of `RegState`; the bound ipi_ops/rpu_ops tables are
represented by `method`, which is what selected them in probe. -/
structure zynqmp_r5_rproc_pdata where
  method : control_method
  rpu_mode : rpu_core_conf
  bootmem : rpu_bootmem
  rpu_id : Nat
  ipi_dest_mask : Nat
  pdev : Nat

/-- The three memory-mapped register windows of an instance. -/
structure RegState where
  rpu : Nat → Nat
  crl : Nat → Nat
  ipi : Nat → Nat

/-- Which window a raw register write targeted. -/
inductive Window
  | rpu
  | crl
  | ipi
deriving DecidableEq

/-- Raw observable effects: register writes, busy-wait delays, and the
diagnostic a stub backend emits (pr_err). -/
inductive RawEvent
  | write (w : Window) (off val : Nat)
  | udelay (n : Nat)
  | diag
deriving DecidableEq

/-- Operation-level events issued by the lifecycle controller: handle
binding (INIT_WORK, carrying which handler was chosen), global cache
flush, registry publication, the eight backend operations, and the
settle delay issued directly by start. -/
inductive OpEvent
  | initWork (handler : Nat)
  | flushCache
  | publish (id : Nat)
  | coreConf
  | enReset (asserted : Bool)
  | halt (halted : Bool)
  | bootDev
  | delay (n : Nat)
  | ipiReset
  | ipiSetMask
  | ipiClear
  | ipiTrigger
deriving DecidableEq

/-- Full modelled machine state: register windows, the remoteprocdev
registry (core index to platform device id), and the two traces. -/
structure KState where
  regs : RegState
  remoteprocdev : Nat → Option Nat
  opTrace : List OpEvent
  raw : List RawEvent

/-- reg_write on the RPU window. -/
def reg_write_rpu (s : KState) (off val : Nat) : KState :=
  { s with
    regs := { s.regs with rpu := fun o => if o = off then val else s.regs.rpu o }
    raw := s.raw ++ [RawEvent.write Window.rpu off val] }

/-- reg_write on the CRL_APB window. -/
def reg_write_crl (s : KState) (off val : Nat) : KState :=
  { s with
    regs := { s.regs with crl := fun o => if o = off then val else s.regs.crl o }
    raw := s.raw ++ [RawEvent.write Window.crl off val] }

/-- reg_write on the IPI window. -/
def reg_write_ipi (s : KState) (off val : Nat) : KState :=
  { s with
    regs := { s.regs with ipi := fun o => if o = off then val else s.regs.ipi o }
    raw := s.raw ++ [RawEvent.write Window.ipi off val] }

/-- udelay(n): recorded as a raw busy-wait event. -/
def udelay (n : Nat) (s : KState) : KState :=
  { s with raw := s.raw ++ [RawEvent.udelay n] }

/-- pr_err diagnostic emitted by the SMC/HVC stub operations. -/
def pr_err_stub (s : KState) : KState :=
  { s with raw := s.raw ++ [RawEvent.diag] }

/-- Append an operation-level event. -/
def emit_op (e : OpEvent) (s : KState) : KState :=
  { s with opTrace := s.opTrace ++ [e] }

/-- flush_cache_all, recorded at operation level. -/
def flush_cache_all (s : KState) : KState :=
  emit_op OpEvent.flushCache s

/-- The per-core configuration register offset selected by rpu_id.  The C
functions hw_r5_boot_dev and hw_r5_halt each compute this the same way:
RPU_1_CFG_OFFSET by default, RPU_0_CFG_OFFSET when rpu_id == 0. -/
def r5_cfg_offset (p : zynqmp_r5_rproc_pdata) : Nat :=
  if p.rpu_id = 0 then RPU_0_CFG_OFFSET else RPU_1_CFG_OFFSET

/-- hw_r5_boot_dev: read the per-core configuration register, set
VINITHI_BIT when bootmem is OCM and clear it otherwise, write back. -/
def hw_r5_boot_dev (p : zynqmp_r5_rproc_pdata) (s : KState) : KState :=
  let offset := r5_cfg_offset p
  let tmp := s.regs.rpu offset
  let tmp := if p.bootmem = rpu_bootmem.OCM then tmp ||| VINITHI_BIT
             else tmp &&& compl32 VINITHI_BIT
  reg_write_rpu s offset tmp

/-- hw_r5_reset: read RST_LPD_TOP, set or clear RPU0_RESET_BIT shifted
left by rpu_id, write back. -/
def hw_r5_reset (p : zynqmp_r5_rproc_pdata) (do_reset : Bool) (s : KState) : KState :=
  let tmp := s.regs.crl RST_LPD_TOP_OFFSET
  let tmp := if do_reset then tmp ||| (RPU0_RESET_BIT <<< p.rpu_id)
             else tmp &&& compl32 (RPU0_RESET_BIT <<< p.rpu_id)
  reg_write_crl s RST_LPD_TOP_OFFSET tmp

/-- hw_r5_halt: read the per-core configuration register, clear
nCPUHALT_BIT to halt and set it to run, write back. -/
def hw_r5_halt (p : zynqmp_r5_rproc_pdata) (do_halt : Bool) (s : KState) : KState :=
  let offset := r5_cfg_offset p
  let tmp := s.regs.rpu offset
  let tmp := if do_halt then tmp &&& compl32 nCPUHALT_BIT
             else tmp ||| nCPUHALT_BIT
  reg_write_rpu s offset tmp

/-- hw_r5_core_config: read the shared RPU control register at offset 0;
for SPLIT set SLSPLIT_BIT and clear TCM_COMB_BIT and SLCLAMP_BIT, for
LOCK_STEP the inverse; write back. -/
def hw_r5_core_config (p : zynqmp_r5_rproc_pdata) (s : KState) : KState :=
  let tmp := s.regs.rpu 0
  let tmp := if p.rpu_mode = rpu_core_conf.SPLIT then
               ((tmp ||| SLSPLIT_BIT) &&& compl32 TCM_COMB_BIT) &&& compl32 SLCLAMP_BIT
             else
               ((tmp &&& compl32 SLSPLIT_BIT) ||| TCM_COMB_BIT) ||| SLCLAMP_BIT
  reg_write_rpu s 0 tmp

/-- smc_r5_boot_dev stub: diagnostic only. -/
def smc_r5_boot_dev (_p : zynqmp_r5_rproc_pdata) (s : KState) : KState :=
  pr_err_stub s

/-- smc_r5_reset stub: diagnostic only. -/
def smc_r5_reset (_p : zynqmp_r5_rproc_pdata) (_do_reset : Bool) (s : KState) : KState :=
  pr_err_stub s

/-- smc_r5_halt stub: diagnostic only. -/
def smc_r5_halt (_p : zynqmp_r5_rproc_pdata) (_do_halt : Bool) (s : KState) : KState :=
  pr_err_stub s

/-- smc_r5_core_config stub: diagnostic only. -/
def smc_r5_core_config (_p : zynqmp_r5_rproc_pdata) (s : KState) : KState :=
  pr_err_stub s

/-- hvc_r5_boot_dev stub: diagnostic only. -/
def hvc_r5_boot_dev (_p : zynqmp_r5_rproc_pdata) (s : KState) : KState :=
  pr_err_stub s

/-- hvc_r5_reset stub: diagnostic only. -/
def hvc_r5_reset (_p : zynqmp_r5_rproc_pdata) (_do_reset : Bool) (s : KState) : KState :=
  pr_err_stub s

/-- hvc_r5_halt stub: diagnostic only. -/
def hvc_r5_halt (_p : zynqmp_r5_rproc_pdata) (_do_halt : Bool) (s : KState) : KState :=
  pr_err_stub s

/-- hvc_r5_core_config stub: diagnostic only. -/
def hvc_r5_core_config (_p : zynqmp_r5_rproc_pdata) (s : KState) : KState :=
  pr_err_stub s

/-- hw_clear_ipi: write the destination mask to the IPI status register. -/
def hw_clear_ipi (p : zynqmp_r5_rproc_pdata) (s : KState) : KState :=
  reg_write_ipi s ISR_OFFSET p.ipi_dest_mask

/-- hw_ipi_reset: write IPI_ALL_MASK to IDR, then to ISR, then udelay(10). -/
def hw_ipi_reset (_p : zynqmp_r5_rproc_pdata) (s : KState) : KState :=
  let s := reg_write_ipi s IDR_OFFSET IPI_ALL_MASK
  let s := reg_write_ipi s ISR_OFFSET IPI_ALL_MASK
  udelay 10 s

/-- hw_set_ipi_mask: write the destination mask to the IPI enable register. -/
def hw_set_ipi_mask (p : zynqmp_r5_rproc_pdata) (s : KState) : KState :=
  reg_write_ipi s IER_OFFSET p.ipi_dest_mask

/-- hw_trigger_ipi: write the destination mask to the IPI trigger register. -/
def hw_trigger_ipi (p : zynqmp_r5_rproc_pdata) (s : KState) : KState :=
  reg_write_ipi s TRIG_OFFSET p.ipi_dest_mask

/-- smc_clear_ipi stub: diagnostic only. -/
def smc_clear_ipi (_p : zynqmp_r5_rproc_pdata) (s : KState) : KState :=
  pr_err_stub s

/-- smc_ipi_reset stub: diagnostic only. -/
def smc_ipi_reset (_p : zynqmp_r5_rproc_pdata) (s : KState) : KState :=
  pr_err_stub s

/-- smc_set_ipi_mask stub: diagnostic only. -/
def smc_set_ipi_mask (_p : zynqmp_r5_rproc_pdata) (s : KState) : KState :=
  pr_err_stub s

/-- smc_trigger_ipi stub: diagnostic only. -/
def smc_trigger_ipi (_p : zynqmp_r5_rproc_pdata) (s : KState) : KState :=
  pr_err_stub s

/-- hvc_clear_ipi stub: diagnostic only. -/
def hvc_clear_ipi (_p : zynqmp_r5_rproc_pdata) (s : KState) : KState :=
  pr_err_stub s

/-- hvc_ipi_reset stub: diagnostic only. -/
def hvc_ipi_reset (_p : zynqmp_r5_rproc_pdata) (s : KState) : KState :=
  pr_err_stub s

/-- hvc_set_ipi_mask stub: diagnostic only. -/
def hvc_set_ipi_mask (_p : zynqmp_r5_rproc_pdata) (s : KState) : KState :=
  pr_err_stub s

/-- hvc_trigger_ipi stub: diagnostic only. -/
def hvc_trigger_ipi (_p : zynqmp_r5_rproc_pdata) (s : KState) : KState :=
  pr_err_stub s

/-- Dispatch of pdata.rpu_ops.core_conf: probe bound rpu_hw_ops,
rpu_smc_ops or rpu_hvc_ops according to the control method.  The
operation-level event records that the table slot was invoked. -/
def rpu_ops_core_conf (p : zynqmp_r5_rproc_pdata) (s : KState) : KState :=
  let s := emit_op OpEvent.coreConf s
  match p.method with
  | control_method.HW => hw_r5_core_config p s
  | control_method.SMC => smc_r5_core_config p s
  | control_method.HVC => hvc_r5_core_config p s

/-- Dispatch of pdata.rpu_ops.bootdev. -/
def rpu_ops_bootdev (p : zynqmp_r5_rproc_pdata) (s : KState) : KState :=
  let s := emit_op OpEvent.bootDev s
  match p.method with
  | control_method.HW => hw_r5_boot_dev p s
  | control_method.SMC => smc_r5_boot_dev p s
  | control_method.HVC => hvc_r5_boot_dev p s

/-- Dispatch of pdata.rpu_ops.halt. -/
def rpu_ops_halt (p : zynqmp_r5_rproc_pdata) (do_halt : Bool) (s : KState) : KState :=
  let s := emit_op (OpEvent.halt do_halt) s
  match p.method with
  | control_method.HW => hw_r5_halt p do_halt s
  | control_method.SMC => smc_r5_halt p do_halt s
  | control_method.HVC => hvc_r5_halt p do_halt s

/-- Dispatch of pdata.rpu_ops.en_reset. -/
def rpu_ops_en_reset (p : zynqmp_r5_rproc_pdata) (do_reset : Bool) (s : KState) : KState :=
  let s := emit_op (OpEvent.enReset do_reset) s
  match p.method with
  | control_method.HW => hw_r5_reset p do_reset s
  | control_method.SMC => smc_r5_reset p do_reset s
  | control_method.HVC => hvc_r5_reset p do_reset s

/-- Dispatch of pdata.ipi_ops.clear. -/
def ipi_ops_clear (p : zynqmp_r5_rproc_pdata) (s : KState) : KState :=
  let s := emit_op OpEvent.ipiClear s
  match p.method with
  | control_method.HW => hw_clear_ipi p s
  | control_method.SMC => smc_clear_ipi p s
  | control_method.HVC => hvc_clear_ipi p s

/-- Dispatch of pdata.ipi_ops.reset. -/
def ipi_ops_reset (p : zynqmp_r5_rproc_pdata) (s : KState) : KState :=
  let s := emit_op OpEvent.ipiReset s
  match p.method with
  | control_method.HW => hw_ipi_reset p s
  | control_method.SMC => smc_ipi_reset p s
  | control_method.HVC => hvc_ipi_reset p s

/-- Dispatch of pdata.ipi_ops.set_mask. -/
def ipi_ops_set_mask (p : zynqmp_r5_rproc_pdata) (s : KState) : KState :=
  let s := emit_op OpEvent.ipiSetMask s
  match p.method with
  | control_method.HW => hw_set_ipi_mask p s
  | control_method.SMC => smc_set_ipi_mask p s
  | control_method.HVC => hvc_set_ipi_mask p s

/-- Dispatch of pdata.ipi_ops.trigger. -/
def ipi_ops_trigger (p : zynqmp_r5_rproc_pdata) (s : KState) : KState :=
  let s := emit_op OpEvent.ipiTrigger s
  match p.method with
  | control_method.HW => hw_trigger_ipi p s
  | control_method.SMC => smc_trigger_ipi p s
  | control_method.HVC => hvc_trigger_ipi p s

/-- ipi_init: ipi_ops reset followed by ipi_ops set_mask. -/
def ipi_init (p : zynqmp_r5_rproc_pdata) (s : KState) : KState :=
  let s := ipi_ops_reset p s
  ipi_ops_set_mask p s

/-- Registry publication remoteprocdev[rpu_id] = pdev performed by start. -/
def publish_dev (p : zynqmp_r5_rproc_pdata) (s : KState) : KState :=
  let s := emit_op (OpEvent.publish p.rpu_id) s
  { s with remoteprocdev := fun i => if i = p.rpu_id then some p.pdev else s.remoteprocdev i }

/-- zynqmp_r5_rproc_start: INIT_WORK with handle_event0 or handle_event1
by rpu_id, flush_cache_all, publish into remoteprocdev, core_conf,
en_reset(true), halt(true), bootdev, udelay(500), en_reset(false),
halt(false), ipi_init; returns 0. -/
def zynqmp_r5_rproc_start (p : zynqmp_r5_rproc_pdata) (s : KState) : KState × Int :=
  let s := emit_op (OpEvent.initWork (if p.rpu_id = 0 then 0 else 1)) s
  let s := flush_cache_all s
  let s := publish_dev p s
  let s := rpu_ops_core_conf p s
  let s := rpu_ops_en_reset p true s
  let s := rpu_ops_halt p true s
  let s := rpu_ops_bootdev p s
  let s := emit_op (OpEvent.delay 500) (udelay 500 s)
  let s := rpu_ops_en_reset p false s
  let s := rpu_ops_halt p false s
  let s := ipi_init p s
  (s, 0)

/-- zynqmp_r5_rproc_stop: en_reset(true), halt(true), ipi_ops reset;
returns 0. -/
def zynqmp_r5_rproc_stop (p : zynqmp_r5_rproc_pdata) (s : KState) : KState × Int :=
  let s := rpu_ops_en_reset p true s
  let s := rpu_ops_halt p true s
  let s := ipi_ops_reset p s
  (s, 0)

/-- zynqmp_r5_rproc_kick: trigger the IPI. -/
def zynqmp_r5_rproc_kick (p : zynqmp_r5_rproc_pdata) (s : KState) : KState :=
  ipi_ops_trigger p s

/-- struct rproc_vring fields used by the address translator: the queue
physical (DMA) base and its host kernel virtual base. -/
structure rproc_vring where
  dma : Nat
  va : Nat

/-- zynqmp_r5_kva_to_guest_addr_kva: phys_to_virt(rvring.dma) plus the
offset of va from rvring.va.  phys_to_virt is the host physical-to-virtual
mapping, a parameter of the model. -/
def zynqmp_r5_kva_to_guest_addr_kva (phys_to_virt : Nat → Nat)
    (rvring : rproc_vring) (va : Nat) : Nat :=
  phys_to_virt rvring.dma + (va - rvring.va)

/-- The inverse mapping of the translation, as named by the spec round
trip property: from a translated address, subtract the physical base
reinterpreted in host terms and rebase onto the queue host virtual base. -/
def guest_addr_kva_to_kva (phys_to_virt : Nat → Nat)
    (rvring : rproc_vring) (ga : Nat) : Nat :=
  rvring.va + (ga - phys_to_virt rvring.dma)

/-- Default firmware image name. -/
def DEFAULT_FIRMWARE_NAME : String := "rproc-rpu-fw"

/-- errno ENOMEM. -/
def ENOMEM : Int := 12

/-- errno ENXIO. -/
def ENXIO : Int := 6

/-- Conversion of an int return value into the u32 field it is stored in
(local->vring0 = platform_get_irq(...)). -/
def u32_of_int (i : Int) : Nat := (i % (2 : Int) ^ 32).toNat

/-- External collaborator results consumed by probe: resource lookups,
DMA setup, device tree properties, irq setup, and rproc registration. -/
structure probe_env where
  kzalloc_ok : Bool
  vring0_res : Bool
  dma_declare_io : Bool
  dma_set_mask_ret : Int
  core_conf_prop : Option String
  method_prop : Option String
  rpu_map_err : Option Int
  apb_map_err : Option Int
  ipi_map_err : Option Int
  bootmem_prop : Option String
  irq_ret : Int
  request_irq_ret : Int
  ipi_dest_mask_prop : Option Nat
  firmware_param : Option String
  firmware_prop : Option String
  rproc_alloc_ok : Bool
  rproc_add_ret : Int

/-- The devm_kzalloc-zeroed local pdata fields as probe fills them in.
ops_bound records which ipi_ops/rpu_ops tables were bound (none models
the NULL pointers of the zeroed allocation). -/
structure probe_local where
  rpu_mode : rpu_core_conf := rpu_core_conf.LOCK_STEP
  bootmem : rpu_bootmem := rpu_bootmem.TCM
  ipi_dest_mask : Nat := 0
  rpu_id : Nat := 0
  vring0 : Nat := 0
  ops_bound : Option control_method := none
  rproc_added : Bool := false

/-- Firmware name resolution in probe: module parameter first, then the
device tree property, then the default. -/
def probe_firmware_name (env : probe_env) : String :=
  match env.firmware_param with
  | some f => f
  | none =>
    match env.firmware_prop with
    | some p => p
    | none => DEFAULT_FIRMWARE_NAME

/-- Tail of probe: rproc_alloc and rproc_add.  Both failure paths go
through rproc_fault and dma_mask_fault to err_exit, which returns 0. -/
def probe_firmware (l : probe_local) (env : probe_env) : Int × probe_local :=
  if env.rproc_alloc_ok then
    if env.rproc_add_ret ≠ 0 then (0, l)
    else (env.rproc_add_ret, { l with rproc_added := true })
  else (0, l)

/-- probe stage: read ipi_dest_mask with default 0x100, then firmware. -/
def probe_dest_mask (l : probe_local) (env : probe_env) : Int × probe_local :=
  let l := { l with ipi_dest_mask := env.ipi_dest_mask_prop.getD 0x100 }
  probe_firmware l env

/-- probe stage: store platform_get_irq into the u32 vring0 field; the C
code then tests the u32 against 0 (never true); on devm_request_irq
failure it jumps to dma_mask_fault, whose fall-through returns 0. -/
def probe_irq (l : probe_local) (env : probe_env) : Int × probe_local :=
  let l := { l with vring0 := u32_of_int env.irq_ret }
  if l.vring0 < 0 then (0, l)
  else if env.request_irq_ret ≠ 0 then (0, l)
  else probe_dest_mask l env

/-- probe stage: bootmem property, default tcm; an unrecognized string
jumps to dma_mask_fault, whose fall-through returns 0. -/
def probe_bootmem (l : probe_local) (env : probe_env) : Int × probe_local :=
  let prop := env.bootmem_prop.getD "tcm"
  if prop = "tcm" then probe_irq { l with bootmem := rpu_bootmem.TCM } env
  else if prop = "ocm" then probe_irq { l with bootmem := rpu_bootmem.OCM } env
  else (0, l)

/-- probe stage for method HW only: map the rpu, apb and ipi windows; a
mapping failure jumps to dma_mask_fault, whose fall-through returns 0. -/
def probe_hwmap (l : probe_local) (env : probe_env) : Int × probe_local :=
  match env.rpu_map_err with
  | some _ => (0, l)
  | none =>
    match env.apb_map_err with
    | some _ => (0, l)
    | none =>
      match env.ipi_map_err with
      | some _ => (0, l)
      | none => probe_bootmem l env

/-- probe stage: method property, default smc; binds the ops tables; an
unrecognized string jumps to dma_mask_fault, whose fall-through
returns 0. -/
def probe_method (l : probe_local) (env : probe_env) : Int × probe_local :=
  let prop := env.method_prop.getD "smc"
  if prop = "direct" then probe_hwmap { l with ops_bound := some control_method.HW } env
  else if prop = "hvc" then probe_bootmem { l with ops_bound := some control_method.HVC } env
  else if prop = "smc" then probe_bootmem { l with ops_bound := some control_method.SMC } env
  else (0, l)

/-- zynqmp_r5_remoteproc_probe: the full probe control flow, returning
the C return value and the local pdata as filled in at the point of
return.  The goto labels rproc_fault and dma_mask_fault fall through to
err_exit, which returns 0 regardless of the value left in ret; probe
performs no register write on any path. -/
def zynqmp_r5_remoteproc_probe (env : probe_env) : Int × probe_local :=
  if ¬ env.kzalloc_ok then (-ENOMEM, {})
  else if ¬ env.vring0_res then (- ENXIO, {})
  else if ¬ env.dma_declare_io then (0, {})
  else if env.dma_set_mask_ret ≠ 0 then (0, {})
  else
    let prop := env.core_conf_prop.getD "lock-step"
    if prop = "split0" then
      probe_method { rpu_mode := rpu_core_conf.SPLIT, rpu_id := 0 } env
    else if prop = "split1" then
      probe_method { rpu_mode := rpu_core_conf.SPLIT, rpu_id := 1 } env
    else if prop = "lock-step" then
      probe_method { rpu_mode := rpu_core_conf.LOCK_STEP, rpu_id := 0 } env
    else (0, {})

/-! Bit-level helper lemmas about the read-modify-write patterns. -/

/-- Bit b of x is false when x fits below bit 32 and b is at least 32. -/
theorem testBit_ge32_eq_false (v i : Nat) (hv : v < 2 ^ 32) (hi : 32 ≤ i) :
    v.testBit i = false :=
  Nat.testBit_lt_two_pow (lt_of_lt_of_le hv (Nat.pow_le_pow_right (by norm_num) hi))

/-- Bit i of the single-bit constant BIT b. -/
theorem testBit_BIT (b i : Nat) : (BIT b).testBit i = decide (i = b) := by
  rw [BIT, Nat.one_shiftLeft, Nat.testBit_two_pow]
  by_cases h : i = b
  · simp [h]
  · simp [h, Ne.symm h]

/-- Characterization of an or with a single bit. -/
theorem testBit_or_BIT (v b i : Nat) :
    (v ||| BIT b).testBit i = (v.testBit i || decide (i = b)) := by
  simp [testBit_BIT]

/-- Characterization of an and with the 32-bit complement of a single bit. -/
theorem testBit_and_complBIT (v b i : Nat) (hb : b < 32) :
    (v &&& compl32 (BIT b)).testBit i
      = (v.testBit i && !(decide (i = b)) && decide (i < 32)) := by
  have hmask : (0xFFFFFFFF : Nat).testBit i = decide (i < 32) := by
    have h32 : (0xFFFFFFFF : Nat) = 2 ^ 32 - 1 := by norm_num
    rw [h32, Nat.testBit_two_pow_sub_one]
  by_cases h : i = b
  · subst h
    simp [compl32, hmask, testBit_BIT, hb]
  · by_cases hlt : i < 32 <;> simp [compl32, hmask, testBit_BIT, h, hlt]

/-- Setting a bit leaves every other bit position unchanged. -/
theorem or_BIT_preserve (v b i : Nat) (h : i ≠ b) :
    (v ||| BIT b).testBit i = v.testBit i := by
  simp [testBit_BIT, h]

/-- Setting a bit makes that bit true. -/
theorem or_BIT_testBit_self (v b : Nat) : (v ||| BIT b).testBit b = true := by
  simp [testBit_BIT]

/-- Clearing a bit of a u32 value leaves every other bit unchanged. -/
theorem and_complBIT_preserve (v b i : Nat) (hb : b < 32) (hv : v < 2 ^ 32)
    (h : i ≠ b) : (v &&& compl32 (BIT b)).testBit i = v.testBit i := by
  rcases Nat.lt_or_ge i 32 with hlt | hge
  · simp [testBit_and_complBIT v b i hb, h, hlt]
  · simp [testBit_and_complBIT v b i hb, Nat.not_lt.mpr hge,
      testBit_ge32_eq_false v i hv hge]

/-- Clearing a bit makes that bit false. -/
theorem and_complBIT_testBit_self (v b : Nat) (hb : b < 32) :
    (v &&& compl32 (BIT b)).testBit b = false := by
  simp [testBit_and_complBIT v b b hb]

/-- Bit i of the 32-bit complement of a single bit. -/
theorem testBit_compl32_BIT (b i : Nat) (hb : b < 32) :
    (compl32 (BIT b)).testBit i = (!(decide (i = b)) && decide (i < 32)) := by
  have hmask : (0xFFFFFFFF : Nat).testBit i = decide (i < 32) := by
    have h32 : (0xFFFFFFFF : Nat) = 2 ^ 32 - 1 := by norm_num
    rw [h32, Nat.testBit_two_pow_sub_one]
  by_cases h : i = b
  · subst h
    simp [compl32, hmask, testBit_BIT, hb]
  · by_cases hlt : i < 32 <;> simp [compl32, hmask, testBit_BIT, h, hlt]

/-- Specialization of the complement characterization to bit 0. -/
theorem compl32_BIT0_testBit (i : Nat) :
    (compl32 (BIT 0)).testBit i = (!(decide (i = 0)) && decide (i < 32)) :=
  testBit_compl32_BIT 0 i (by norm_num)

/-- Specialization of the complement characterization to bit 2. -/
theorem compl32_BIT2_testBit (i : Nat) :
    (compl32 (BIT 2)).testBit i = (!(decide (i = 2)) && decide (i < 32)) :=
  testBit_compl32_BIT 2 i (by norm_num)

/-- Specialization of the complement characterization to bit 3. -/
theorem compl32_BIT3_testBit (i : Nat) :
    (compl32 (BIT 3)).testBit i = (!(decide (i = 3)) && decide (i < 32)) :=
  testBit_compl32_BIT 3 i (by norm_num)

/-- Specialization of the complement characterization to bit 4. -/
theorem compl32_BIT4_testBit (i : Nat) :
    (compl32 (BIT 4)).testBit i = (!(decide (i = 4)) && decide (i < 32)) :=
  testBit_compl32_BIT 4 i (by norm_num)

/-- Specialization of the complement characterization to bit 6. -/
theorem compl32_BIT6_testBit (i : Nat) :
    (compl32 (BIT 6)).testBit i = (!(decide (i = 6)) && decide (i < 32)) :=
  testBit_compl32_BIT 6 i (by norm_num)

/-- RPU0_RESET_BIT shifted by the core id is the bit at position id. -/
theorem RPU0_RESET_BIT_shift (id : Nat) : RPU0_RESET_BIT <<< id = BIT id := by
  simp [RPU0_RESET_BIT, BIT, Nat.shiftLeft_eq]

/-- Setting the shifted reset bit makes bit id true. -/
theorem or_RPU0_shift_testBit_self (v id : Nat) :
    (v ||| RPU0_RESET_BIT <<< id).testBit id = true := by
  rw [RPU0_RESET_BIT_shift]
  exact or_BIT_testBit_self v id

/-- A guarded test bit below 32 of a u32 value collapses to the plain bit. -/
theorem testBit_and_lt32 (v i : Nat) (hv : v < 2 ^ 32) :
    (v.testBit i && decide (i < 32)) = v.testBit i := by
  rcases Nat.lt_or_ge i 32 with hlt | hge
  · simp [hlt]
  · simp [Nat.not_lt.mpr hge, testBit_ge32_eq_false v i hv hge]

/-! Lifecycle observables used by the round-trip claim. -/

/-- The halted+reset observables of an instance: the value of its reset
bit in RST_LPD_TOP and the value of the nCPUHALT run/halt bit of its
per-core configuration register (false means halted). -/
def halted_reset_obs (p : zynqmp_r5_rproc_pdata) (r : RegState) : Bool × Bool :=
  ((r.crl RST_LPD_TOP_OFFSET).testBit p.rpu_id,
   (r.rpu (r5_cfg_offset p)).testBit 0)

/-- The fully reset and halted state of the spec: reset bit asserted,
run/halt bit low (halted). -/
def halted_reset (p : zynqmp_r5_rproc_pdata) (r : RegState) : Prop :=
  halted_reset_obs p r = (true, false)

/-! Concrete fixtures used by the witness theorems. -/

/-- An all-zero machine state. -/
def s0 : KState :=
  { regs := { rpu := fun _ => 0, crl := fun _ => 0, ipi := fun _ => 0 }
    remoteprocdev := fun _ => none
    opTrace := []
    raw := [] }

/-- A concrete Direct-variant core-0 instance. -/
def p_hw : zynqmp_r5_rproc_pdata :=
  { method := control_method.HW
    rpu_mode := rpu_core_conf.LOCK_STEP
    bootmem := rpu_bootmem.TCM
    rpu_id := 0
    ipi_dest_mask := 0x100
    pdev := 1 }

/-- A concrete Direct-variant core-1 instance. -/
def p_hw1 : zynqmp_r5_rproc_pdata :=
  { p_hw with rpu_id := 1 }

/-- A concrete SMC-variant instance. -/
def p_smc : zynqmp_r5_rproc_pdata :=
  { p_hw with method := control_method.SMC }

/-- A freshly constructed halted+reset register state for core 0: reset
bit 0 set in RST_LPD_TOP, per-core configuration register zero. -/
def s_hr : KState :=
  { s0 with regs := { s0.regs with
      crl := fun o => if o = RST_LPD_TOP_OFFSET then 1 else 0 } }

/-! Claim theorems. -/

/-- Claim C2: for every instance, start binds the deferred-task handle,
flushes the data cache, publishes the instance into the registry under
its core index, then issues configureCoreMode, setReset(true),
setHalt(true), setBootDevice, the fixed 500-time-unit delay,
setReset(false), setHalt(false), resetNotificationChannel and
programDestinationMask, in exactly this order, and returns success. -/
theorem start_sequence_exact (p : zynqmp_r5_rproc_pdata) (s : KState) :
    (zynqmp_r5_rproc_start p s).2 = 0 ∧
    (zynqmp_r5_rproc_start p s).1.opTrace = s.opTrace ++
      [OpEvent.initWork (if p.rpu_id = 0 then 0 else 1), OpEvent.flushCache,
       OpEvent.publish p.rpu_id, OpEvent.coreConf, OpEvent.enReset true,
       OpEvent.halt true, OpEvent.bootDev, OpEvent.delay 500,
       OpEvent.enReset false, OpEvent.halt false, OpEvent.ipiReset,
       OpEvent.ipiSetMask] := by
  refine ⟨rfl, ?_⟩
  cases hm : p.method <;>
    simp [zynqmp_r5_rproc_start, ipi_init, flush_cache_all, publish_dev,
      rpu_ops_core_conf, rpu_ops_en_reset, rpu_ops_halt, rpu_ops_bootdev,
      ipi_ops_reset, ipi_ops_set_mask, hw_r5_core_config, hw_r5_reset,
      hw_r5_halt, hw_r5_boot_dev, hw_ipi_reset, hw_set_ipi_mask,
      smc_r5_core_config, smc_r5_reset, smc_r5_halt, smc_r5_boot_dev,
      smc_ipi_reset, smc_set_ipi_mask, hvc_r5_core_config, hvc_r5_reset,
      hvc_r5_halt, hvc_r5_boot_dev, hvc_ipi_reset, hvc_set_ipi_mask,
      reg_write_rpu, reg_write_crl, reg_write_ipi, udelay, emit_op,
      pr_err_stub, hm]

/-- Claim C6: resetNotificationChannel (Direct variant) writes the mask
constant 0x0F0F0301 first to the disable register IDR and then to the
status-clear register ISR, in that order, then waits the fixed
10-time-unit settle delay before returning. -/
theorem ipi_reset_order_and_delay (p : zynqmp_r5_rproc_pdata) (s : KState) :
    (hw_ipi_reset p s).raw = s.raw ++
      [RawEvent.write Window.ipi IDR_OFFSET IPI_ALL_MASK,
       RawEvent.write Window.ipi ISR_OFFSET IPI_ALL_MASK,
       RawEvent.udelay 10] ∧
    (hw_ipi_reset p s).regs.ipi IDR_OFFSET = IPI_ALL_MASK ∧
    (hw_ipi_reset p s).regs.ipi ISR_OFFSET = IPI_ALL_MASK := by
  refine ⟨?_, ?_, ?_⟩ <;>
    simp [hw_ipi_reset, reg_write_ipi, udelay, IDR_OFFSET, ISR_OFFSET]

/-- Claim C7: on an instance bound to the SMC or HVC variant, each of the
eight operations returns normally (they are total functions of the model)
and modifies neither any register nor the instance registry. -/
theorem stub_ops_no_hardware_effect (p : zynqmp_r5_rproc_pdata) (s : KState)
    (h : p.method = control_method.SMC ∨ p.method = control_method.HVC) :
    ((rpu_ops_core_conf p s).regs = s.regs ∧
      (rpu_ops_core_conf p s).remoteprocdev = s.remoteprocdev) ∧
    ((rpu_ops_bootdev p s).regs = s.regs ∧
      (rpu_ops_bootdev p s).remoteprocdev = s.remoteprocdev) ∧
    (∀ b, (rpu_ops_halt p b s).regs = s.regs ∧
      (rpu_ops_halt p b s).remoteprocdev = s.remoteprocdev) ∧
    (∀ b, (rpu_ops_en_reset p b s).regs = s.regs ∧
      (rpu_ops_en_reset p b s).remoteprocdev = s.remoteprocdev) ∧
    ((ipi_ops_clear p s).regs = s.regs ∧
      (ipi_ops_clear p s).remoteprocdev = s.remoteprocdev) ∧
    ((ipi_ops_reset p s).regs = s.regs ∧
      (ipi_ops_reset p s).remoteprocdev = s.remoteprocdev) ∧
    ((ipi_ops_set_mask p s).regs = s.regs ∧
      (ipi_ops_set_mask p s).remoteprocdev = s.remoteprocdev) ∧
    ((ipi_ops_trigger p s).regs = s.regs ∧
      (ipi_ops_trigger p s).remoteprocdev = s.remoteprocdev) := by
  rcases h with h | h <;>
    simp [rpu_ops_core_conf, rpu_ops_bootdev, rpu_ops_halt, rpu_ops_en_reset,
      ipi_ops_clear, ipi_ops_reset, ipi_ops_set_mask, ipi_ops_trigger,
      smc_r5_core_config, smc_r5_boot_dev, smc_r5_halt, smc_r5_reset,
      smc_clear_ipi, smc_ipi_reset, smc_set_ipi_mask, smc_trigger_ipi,
      hvc_r5_core_config, hvc_r5_boot_dev, hvc_r5_halt, hvc_r5_reset,
      hvc_clear_ipi, hvc_ipi_reset, hvc_set_ipi_mask, hvc_trigger_ipi,
      pr_err_stub, emit_op, h]

/-- Claim C7 witness at a concrete SMC instance and state. -/
theorem stub_ops_no_hardware_effect_witness :
    (p_smc.method = control_method.SMC ∨ p_smc.method = control_method.HVC) ∧
    (rpu_ops_core_conf p_smc s0).regs = s0.regs ∧
    (ipi_ops_trigger p_smc s0).regs = s0.regs := by
  have h := stub_ops_no_hardware_effect p_smc s0 (Or.inl rfl)
  exact ⟨Or.inl rfl, h.1.1, h.2.2.2.2.2.2.2.1⟩

/-- Claim C8: the translator returns the physical base mapped into host
terms plus the offset of the host address from the queue host virtual
base, and the inverse mapping recovers the original host address for any
address at or above the queue base. -/
theorem kva_translate_and_round_trip (phys_to_virt : Nat → Nat)
    (rvring : rproc_vring) (va : Nat) (h : rvring.va ≤ va) :
    zynqmp_r5_kva_to_guest_addr_kva phys_to_virt rvring va
      = phys_to_virt rvring.dma + (va - rvring.va) ∧
    guest_addr_kva_to_kva phys_to_virt rvring
      (zynqmp_r5_kva_to_guest_addr_kva phys_to_virt rvring va) = va := by
  refine ⟨rfl, ?_⟩
  simp only [zynqmp_r5_kva_to_guest_addr_kva, guest_addr_kva_to_kva]
  omega

/-- Claim C8 witness at a concrete mapping, queue and address. -/
theorem kva_translate_round_trip_witness :
    (⟨0x3ed00000, 0x5000⟩ : rproc_vring).va ≤ 0x5010 ∧
    guest_addr_kva_to_kva (fun x => x + 0x1000) ⟨0x3ed00000, 0x5000⟩
      (zynqmp_r5_kva_to_guest_addr_kva (fun x => x + 0x1000)
        ⟨0x3ed00000, 0x5000⟩ 0x5010) = 0x5010 :=
  ⟨by decide,
   (kva_translate_and_round_trip (fun x => x + 0x1000)
     ⟨0x3ed00000, 0x5000⟩ 0x5010 (by decide)).2⟩

/-- Claim C4: configureCoreMode (Direct variant) is a read-modify-write
of the shared core-configuration register: for Split it sets the
split-mode bit (3) and clears the TCM-combine (6) and clamp (4) bits; for
LockStep it performs the exact logical inverse; it writes back only that
register. -/
theorem core_config_bits (p : zynqmp_r5_rproc_pdata) (s : KState) :
    (p.rpu_mode = rpu_core_conf.SPLIT →
      ((hw_r5_core_config p s).regs.rpu RPU_GLBL_CNTL_OFFSET).testBit 3 = true ∧
      ((hw_r5_core_config p s).regs.rpu RPU_GLBL_CNTL_OFFSET).testBit 6 = false ∧
      ((hw_r5_core_config p s).regs.rpu RPU_GLBL_CNTL_OFFSET).testBit 4 = false) ∧
    (p.rpu_mode = rpu_core_conf.LOCK_STEP →
      ((hw_r5_core_config p s).regs.rpu RPU_GLBL_CNTL_OFFSET).testBit 3 = false ∧
      ((hw_r5_core_config p s).regs.rpu RPU_GLBL_CNTL_OFFSET).testBit 6 = true ∧
      ((hw_r5_core_config p s).regs.rpu RPU_GLBL_CNTL_OFFSET).testBit 4 = true) ∧
    (∀ o, o ≠ RPU_GLBL_CNTL_OFFSET →
      (hw_r5_core_config p s).regs.rpu o = s.regs.rpu o) ∧
    (∀ o, (hw_r5_core_config p s).regs.crl o = s.regs.crl o) ∧
    (∀ o, (hw_r5_core_config p s).regs.ipi o = s.regs.ipi o) := by
  refine ⟨?_, ?_, ?_, fun o => rfl, fun o => rfl⟩
  · intro hmode
    simp [hw_r5_core_config, reg_write_rpu, RPU_GLBL_CNTL_OFFSET, hmode,
      SLSPLIT_BIT, SLCLAMP_BIT, TCM_COMB_BIT,
      compl32_BIT4_testBit, compl32_BIT6_testBit, testBit_BIT]
  · intro hmode
    simp [hw_r5_core_config, reg_write_rpu, RPU_GLBL_CNTL_OFFSET, hmode,
      SLSPLIT_BIT, SLCLAMP_BIT, TCM_COMB_BIT,
      compl32_BIT3_testBit, testBit_BIT]
  · intro o ho
    simp [hw_r5_core_config, reg_write_rpu, RPU_GLBL_CNTL_OFFSET] at ho ⊢
    simp [ho]

/-- Claim C4 witness: both modes evaluated at concrete instances. -/
theorem core_config_bits_witness :
    p_hw1.rpu_mode = rpu_core_conf.LOCK_STEP ∧
    ((hw_r5_core_config p_hw1 s0).regs.rpu RPU_GLBL_CNTL_OFFSET).testBit 6 = true ∧
    ({ p_hw with rpu_mode := rpu_core_conf.SPLIT } : zynqmp_r5_rproc_pdata).rpu_mode
      = rpu_core_conf.SPLIT ∧
    ((hw_r5_core_config { p_hw with rpu_mode := rpu_core_conf.SPLIT } s0).regs.rpu
      RPU_GLBL_CNTL_OFFSET).testBit 3 = true :=
  ⟨rfl, ((core_config_bits p_hw1 s0).2.1 rfl).2.1, rfl,
   ((core_config_bits { p_hw with rpu_mode := rpu_core_conf.SPLIT } s0).1 rfl).1⟩

/-- Claim C5: setBootDevice (Direct variant) targets the per-core
configuration register selected by the core index, with core 0 and core 1
addressing distinct offsets, sets the boot-source bit (2) when bootmem is
OCM and clears it otherwise, and writes back only that register. -/
theorem boot_dev_bit_and_offset (p : zynqmp_r5_rproc_pdata) (s : KState) :
    ((hw_r5_boot_dev p s).regs.rpu (r5_cfg_offset p)).testBit 2
      = decide (p.bootmem = rpu_bootmem.OCM) ∧
    (∀ o, o ≠ r5_cfg_offset p → (hw_r5_boot_dev p s).regs.rpu o = s.regs.rpu o) ∧
    (∀ o, (hw_r5_boot_dev p s).regs.crl o = s.regs.crl o) ∧
    (∀ o, (hw_r5_boot_dev p s).regs.ipi o = s.regs.ipi o) ∧
    (∀ q0 q1 : zynqmp_r5_rproc_pdata, q0.rpu_id = 0 → q1.rpu_id = 1 →
      r5_cfg_offset q0 ≠ r5_cfg_offset q1) := by
  refine ⟨?_, ?_, fun o => rfl, fun o => rfl, ?_⟩
  · cases hb : p.bootmem <;>
      simp [hw_r5_boot_dev, reg_write_rpu, hb, VINITHI_BIT,
        compl32_BIT2_testBit, testBit_BIT]
  · intro o ho
    simp [hw_r5_boot_dev, reg_write_rpu, ho]
  · intro q0 q1 h0 h1
    simp [r5_cfg_offset, h0, h1, RPU_0_CFG_OFFSET, RPU_1_CFG_OFFSET]

/-- Claim C5 witness: concrete boot-source bit results for both boot
memories and distinctness of the two core offsets. -/
theorem boot_dev_bit_and_offset_witness :
    ((hw_r5_boot_dev p_hw s0).regs.rpu (r5_cfg_offset p_hw)).testBit 2
      = decide (p_hw.bootmem = rpu_bootmem.OCM) ∧
    (1000 : Nat) ≠ r5_cfg_offset p_hw ∧
    (hw_r5_boot_dev p_hw s0).regs.rpu 1000 = s0.regs.rpu 1000 ∧
    p_hw.rpu_id = 0 ∧ p_hw1.rpu_id = 1 ∧
    r5_cfg_offset p_hw ≠ r5_cfg_offset p_hw1 :=
  ⟨(boot_dev_bit_and_offset p_hw s0).1, by decide,
   (boot_dev_bit_and_offset p_hw s0).2.1 1000 (by decide), rfl, rfl,
   (boot_dev_bit_and_offset p_hw s0).2.2.2.2 p_hw p_hw1 rfl rfl⟩

/-- Claim C10: each Direct-variant read-modify-write core-control
operation changes only its designated bits: setBootDevice only bit 2 of
the selected per-core configuration register, setHalt only bit 0 of that
register, setReset only bit rpu_id of the shared reset register, and
configureCoreMode only bits 3, 4 and 6 of the shared control register;
and none of them touches any other offset or window. -/
theorem rmw_ops_frame (p : zynqmp_r5_rproc_pdata) (s : KState)
    (hid : p.rpu_id = 0 ∨ p.rpu_id = 1)
    (hcfg : s.regs.rpu (r5_cfg_offset p) < 2 ^ 32)
    (hctl : s.regs.rpu RPU_GLBL_CNTL_OFFSET < 2 ^ 32)
    (hrst : s.regs.crl RST_LPD_TOP_OFFSET < 2 ^ 32) :
    (∀ i, i ≠ 2 →
      ((hw_r5_boot_dev p s).regs.rpu (r5_cfg_offset p)).testBit i
        = (s.regs.rpu (r5_cfg_offset p)).testBit i) ∧
    (∀ o, o ≠ r5_cfg_offset p → (hw_r5_boot_dev p s).regs.rpu o = s.regs.rpu o) ∧
    (∀ o, (hw_r5_boot_dev p s).regs.crl o = s.regs.crl o) ∧
    (∀ o, (hw_r5_boot_dev p s).regs.ipi o = s.regs.ipi o) ∧
    (∀ b i, i ≠ 0 →
      ((hw_r5_halt p b s).regs.rpu (r5_cfg_offset p)).testBit i
        = (s.regs.rpu (r5_cfg_offset p)).testBit i) ∧
    (∀ b o, o ≠ r5_cfg_offset p → (hw_r5_halt p b s).regs.rpu o = s.regs.rpu o) ∧
    (∀ b o, (hw_r5_halt p b s).regs.crl o = s.regs.crl o) ∧
    (∀ b o, (hw_r5_halt p b s).regs.ipi o = s.regs.ipi o) ∧
    (∀ b i, i ≠ p.rpu_id →
      ((hw_r5_reset p b s).regs.crl RST_LPD_TOP_OFFSET).testBit i
        = (s.regs.crl RST_LPD_TOP_OFFSET).testBit i) ∧
    (∀ b o, o ≠ RST_LPD_TOP_OFFSET → (hw_r5_reset p b s).regs.crl o = s.regs.crl o) ∧
    (∀ b o, (hw_r5_reset p b s).regs.rpu o = s.regs.rpu o) ∧
    (∀ b o, (hw_r5_reset p b s).regs.ipi o = s.regs.ipi o) ∧
    (∀ i, i ≠ 3 → i ≠ 4 → i ≠ 6 →
      ((hw_r5_core_config p s).regs.rpu RPU_GLBL_CNTL_OFFSET).testBit i
        = (s.regs.rpu RPU_GLBL_CNTL_OFFSET).testBit i) ∧
    (∀ o, o ≠ RPU_GLBL_CNTL_OFFSET →
      (hw_r5_core_config p s).regs.rpu o = s.regs.rpu o) ∧
    (∀ o, (hw_r5_core_config p s).regs.crl o = s.regs.crl o) ∧
    (∀ o, (hw_r5_core_config p s).regs.ipi o = s.regs.ipi o) := by
  have hblt : p.rpu_id < 32 := by
    rcases hid with h | h <;> simp [h]
  refine ⟨?_, ?_, fun o => rfl, fun o => rfl, ?_, ?_, fun b o => rfl,
    fun b o => rfl, ?_, ?_, fun b o => rfl, fun b o => rfl, ?_, ?_,
    fun o => rfl, fun o => rfl⟩
  · intro i hi
    cases hbm : p.bootmem
    · rcases Nat.lt_or_ge i 32 with hlt | hge
      · simp [hw_r5_boot_dev, reg_write_rpu, VINITHI_BIT, compl32_BIT2_testBit,
          hbm, hi, hlt]
      · simp [hw_r5_boot_dev, reg_write_rpu, VINITHI_BIT, compl32_BIT2_testBit,
          hbm, Nat.not_lt.mpr hge, testBit_ge32_eq_false _ i hcfg hge]
    · simp [hw_r5_boot_dev, reg_write_rpu, VINITHI_BIT, testBit_BIT, hbm, hi]
  · intro o ho
    simp [hw_r5_boot_dev, reg_write_rpu, ho]
  · intro b i hi
    cases b
    · simp [hw_r5_halt, reg_write_rpu, nCPUHALT_BIT, testBit_BIT, hi]
    · rcases Nat.lt_or_ge i 32 with hlt | hge
      · simp [hw_r5_halt, reg_write_rpu, nCPUHALT_BIT, compl32_BIT0_testBit,
          hi, hlt]
      · simp [hw_r5_halt, reg_write_rpu, nCPUHALT_BIT, compl32_BIT0_testBit,
          Nat.not_lt.mpr hge, testBit_ge32_eq_false _ i hcfg hge]
  · intro b o ho
    simp [hw_r5_halt, reg_write_rpu, ho]
  · intro b i hi
    cases b
    · rcases Nat.lt_or_ge i 32 with hlt | hge
      · simp [hw_r5_reset, reg_write_crl, RPU0_RESET_BIT_shift,
          testBit_compl32_BIT p.rpu_id i hblt, hi, hlt]
      · simp [hw_r5_reset, reg_write_crl, RPU0_RESET_BIT_shift,
          testBit_compl32_BIT p.rpu_id i hblt, Nat.not_lt.mpr hge,
          testBit_ge32_eq_false _ i hrst hge]
    · simp [hw_r5_reset, reg_write_crl, RPU0_RESET_BIT_shift, testBit_BIT, hi]
  · intro b o ho
    simp [hw_r5_reset, reg_write_crl, ho]
  · intro i h3 h4 h6
    have hctl0 : s.regs.rpu 0 < 2 ^ 32 := hctl
    cases hmode : p.rpu_mode
    · rcases Nat.lt_or_ge i 32 with hlt | hge
      · simp [hw_r5_core_config, reg_write_rpu, RPU_GLBL_CNTL_OFFSET, hmode,
          SLSPLIT_BIT, SLCLAMP_BIT, TCM_COMB_BIT, compl32_BIT3_testBit,
          testBit_BIT, h3, h4, h6, hlt]
      · simp [hw_r5_core_config, reg_write_rpu, RPU_GLBL_CNTL_OFFSET, hmode,
          SLSPLIT_BIT, SLCLAMP_BIT, TCM_COMB_BIT, compl32_BIT3_testBit,
          testBit_BIT, h3, h4, h6, Nat.not_lt.mpr hge,
          testBit_ge32_eq_false _ i hctl0 hge]
    · rcases Nat.lt_or_ge i 32 with hlt | hge
      · simp [hw_r5_core_config, reg_write_rpu, RPU_GLBL_CNTL_OFFSET, hmode,
          SLSPLIT_BIT, SLCLAMP_BIT, TCM_COMB_BIT, compl32_BIT4_testBit,
          compl32_BIT6_testBit, testBit_BIT, h3, h4, h6, hlt]
      · simp [hw_r5_core_config, reg_write_rpu, RPU_GLBL_CNTL_OFFSET, hmode,
          SLSPLIT_BIT, SLCLAMP_BIT, TCM_COMB_BIT, compl32_BIT4_testBit,
          compl32_BIT6_testBit, testBit_BIT, h3, h4, h6, Nat.not_lt.mpr hge,
          testBit_ge32_eq_false _ i hctl0 hge]
  · intro o ho
    simp [hw_r5_core_config, reg_write_rpu, RPU_GLBL_CNTL_OFFSET] at ho ⊢
    simp [ho]

/-- Claim C10 witness at a concrete core-0 instance and the zero state. -/
theorem rmw_ops_frame_witness :
    (p_hw.rpu_id = 0 ∨ p_hw.rpu_id = 1) ∧
    s0.regs.rpu (r5_cfg_offset p_hw) < 2 ^ 32 ∧
    s0.regs.rpu RPU_GLBL_CNTL_OFFSET < 2 ^ 32 ∧
    s0.regs.crl RST_LPD_TOP_OFFSET < 2 ^ 32 ∧
    (5 : Nat) ≠ 2 ∧
    ((hw_r5_boot_dev p_hw s0).regs.rpu (r5_cfg_offset p_hw)).testBit 5
      = (s0.regs.rpu (r5_cfg_offset p_hw)).testBit 5 ∧
    ((hw_r5_core_config p_hw s0).regs.rpu RPU_GLBL_CNTL_OFFSET).testBit 5
      = (s0.regs.rpu RPU_GLBL_CNTL_OFFSET).testBit 5 :=
  ⟨Or.inl rfl, by decide, by decide, by decide, by decide,
   (rmw_ops_frame p_hw s0 (Or.inl rfl) (by decide) (by decide) (by decide)).1
     5 (by decide),
   (rmw_ops_frame p_hw s0 (Or.inl rfl) (by decide) (by decide) (by decide)).2.2.2.2.2.2.2.2.2.2.2.2.1
     5 (by decide) (by decide) (by decide)⟩

/-- Claim C3: on a Direct-variant instance whose initial registers are in
the fresh halted+reset state, running start and then stop brings the
controlled reset and run/halt bits back to exactly that halted+reset
state. -/
theorem start_stop_halted_reset (p : zynqmp_r5_rproc_pdata) (s : KState)
    (hm : p.method = control_method.HW)
    (h0 : halted_reset p s.regs) :
    halted_reset p (zynqmp_r5_rproc_stop p (zynqmp_r5_rproc_start p s).1).1.regs ∧
    halted_reset_obs p
      (zynqmp_r5_rproc_stop p (zynqmp_r5_rproc_start p s).1).1.regs
      = halted_reset_obs p s.regs := by
  have hfinal : halted_reset p
      (zynqmp_r5_rproc_stop p (zynqmp_r5_rproc_start p s).1).1.regs := by
    have hc0 : compl32 (BIT 0) % 2 = 0 := by decide
    have hb0 : BIT 0 % 2 = 1 := by decide
    simp [hc0, hb0, halted_reset, halted_reset_obs, zynqmp_r5_rproc_start,
      zynqmp_r5_rproc_stop, ipi_init, flush_cache_all, publish_dev,
      rpu_ops_core_conf, rpu_ops_en_reset, rpu_ops_halt, rpu_ops_bootdev,
      ipi_ops_reset, ipi_ops_set_mask, hw_r5_core_config, hw_r5_reset,
      hw_r5_halt, hw_r5_boot_dev, hw_ipi_reset, hw_set_ipi_mask,
      reg_write_rpu, reg_write_crl, reg_write_ipi, udelay, emit_op, hm,
      or_RPU0_shift_testBit_self, RPU0_RESET_BIT_shift, testBit_BIT,
      nCPUHALT_BIT, compl32_BIT0_testBit]
  exact ⟨hfinal, hfinal.trans h0.symm⟩

/-- Claim C3 witness: a concrete halted+reset initial state for the
Direct core-0 instance round-trips through start and stop. -/
theorem start_stop_halted_reset_witness :
    halted_reset p_hw s_hr.regs ∧
    halted_reset_obs p_hw
      (zynqmp_r5_rproc_stop p_hw (zynqmp_r5_rproc_start p_hw s_hr).1).1.regs
      = halted_reset_obs p_hw s_hr.regs :=
  ⟨rfl, (start_stop_halted_reset p_hw s_hr rfl rfl).2⟩

/-- A probe environment in which every external collaborator succeeds
and all three enumeration properties carry recognized values. -/
def env_ok : probe_env :=
  { kzalloc_ok := true
    vring0_res := true
    dma_declare_io := true
    dma_set_mask_ret := 0
    core_conf_prop := some "lock-step"
    method_prop := some "direct"
    rpu_map_err := none
    apb_map_err := none
    ipi_map_err := none
    bootmem_prop := some "tcm"
    irq_ret := 42
    request_irq_ret := 0
    ipi_dest_mask_prop := some 0x100
    firmware_param := none
    firmware_prop := none
    rproc_alloc_ok := true
    rproc_add_ret := 0 }

/-- Claim C1 is violated by the code: for each of the three unrecognized
enumeration strings, probe takes its error goto path but that path
returns 0 (success) instead of an error; with an invalid core_conf no
backend is ever bound.  (Probe performs no register write on any path, so
the no-hardware-mutation half of the claim does hold.) -/
theorem probe_invalid_enum_returns_success :
    (zynqmp_r5_remoteproc_probe { env_ok with core_conf_prop := some "bogus" }).1 = 0 ∧
    (zynqmp_r5_remoteproc_probe { env_ok with core_conf_prop := some "bogus" }).2.ops_bound
      = none ∧
    (zynqmp_r5_remoteproc_probe { env_ok with method_prop := some "bogus" }).1 = 0 ∧
    (zynqmp_r5_remoteproc_probe { env_ok with bootmem_prop := some "bogus" }).1 = 0 :=
  ⟨rfl, rfl, rfl, rfl⟩

/-- Claim C9 is violated by the code: when the interrupt lookup reports
failure (platform_get_irq returns -6), the negative value is stored in
the u32 vring0 field (wrapping to 4294967290), the u32-against-0 check
never fires, and the subsequent request_irq failure path returns 0
(success); probe does not fail. -/
theorem probe_irq_unavailable_returns_success :
    (zynqmp_r5_remoteproc_probe
        { env_ok with irq_ret := -6, request_irq_ret := -22 }).1 = 0 ∧
    (zynqmp_r5_remoteproc_probe
        { env_ok with irq_ret := -6, request_irq_ret := -22 }).2.vring0
      = 4294967290 :=
  ⟨rfl, rfl⟩

end ZynqmpR5
